import Mathlib

set_option maxHeartbeats 1000000

/-!
Shallow embedding of the ticket record store and the similarity retrieval
engine of the repository (ticket_manager.py, similarity.py, app.py), and
proofs about their specified behaviour.

A pandas DataFrame is modelled as a Lean list of rows; a row carries the
columns the code reads or writes.  Numeric work (tf-idf, cosine
similarity) is modelled over the rationals: all tf-idf entries are
nonnegative, so every cosine value is nonnegative, and the ordering by
cosine coincides exactly with the ordering by its square, which is a
rational number.  The logarithm inside the idf weight is replaced by a
positive, strictly monotone rational surrogate; every property proved
below depends only on the idf weight being positive and a function of the
document counts alone, so the verdicts carry over to the logarithmic
weight of the library.
-/

namespace HelpdeskModel

/-- A value of Python's dynamic typing as it reaches the `idx` parameter of
`TicketManager.resolve_ticket`: the `/resolve-ticket` endpoint in app.py
passes a string ticket id where the manager expects an integer index.
Evaluating the guard `0 <= idx` on a string raises `TypeError` in
Python 3. -/
inductive PyVal where
  | int (i : Int)
  | str (s : String)
  deriving DecidableEq, Repr

/-- One row of a tickets DataFrame: the four core columns, the columns
`resolve_ticket` writes, and the `text` column `_fit` adds.  `none` models
an absent value (NaN or a column not yet present). -/
structure Row where
  ticket_id : String
  issue : String
  description : String
  resolved : Bool
  resolution : Option String := none
  agent_name : Option String := none
  ai_suggestion_helpful : Option Bool := none
  feedback : Option String := none
  text : Option String := none
  deriving DecidableEq, Repr, Inhabited

/-- The pydantic `Ticket` model: `ticket_id`, `issue`, `description`,
`resolved`.  Extra keys passed to the constructor are ignored (pydantic's
default policy), so building a `Ticket` from a resolved row keeps only
these four fields. -/
structure Ticket where
  ticket_id : String
  issue : String
  description : String
  resolved : Bool
  deriving DecidableEq, Repr

/-- `Ticket(**row.to_dict())`: the `Ticket` view of a DataFrame row. -/
def Row.toTicket (r : Row) : Ticket :=
  { ticket_id := r.ticket_id, issue := r.issue,
    description := r.description, resolved := r.resolved }

/-- `pd.DataFrame([ticket.model_dump()])`: the one-row frame built from a
`Ticket` in `add_ticket`; the columns the model lacks are absent. -/
def Ticket.toRow (t : Ticket) : Row :=
  { ticket_id := t.ticket_id, issue := t.issue,
    description := t.description, resolved := t.resolved }

/-- `TicketManager`: the tickets DataFrame plus a current index. -/
structure TicketManager where
  tickets_df : List Row
  current_index : Int := 0
  deriving DecidableEq, Repr

/-- `drop_ticket_by_id`: boolean-mask filter keeping every row whose
`ticket_id` differs from the argument, then `reset_index(drop=True)`
(the list model carries no positional index). -/
def TicketManager.drop_ticket_by_id (m : TicketManager) (tid : String) : TicketManager :=
  { m with tickets_df := m.tickets_df.filter (fun r => r.ticket_id != tid) }

/-- `get_ticket_by_id`: select the rows whose `ticket_id` equals the
argument; if the selection is nonempty return `Ticket(**selection.iloc[0])`,
else `None`. -/
def TicketManager.get_ticket_by_id (m : TicketManager) (tid : String) : Option Ticket :=
  (m.tickets_df.filter (fun r => r.ticket_id == tid)).head?.map Row.toTicket

/-- `add_ticket`: `pd.concat` of the existing DataFrame with the one-row
frame of the new ticket.  The source performs no duplicate-id check. -/
def TicketManager.add_ticket (m : TicketManager) (t : Ticket) : TicketManager :=
  { m with tickets_df := m.tickets_df ++ [t.toRow] }

/-- `get_all_tickets`: every row of the DataFrame as a pydantic `Ticket`. -/
def TicketManager.get_all_tickets (m : TicketManager) : List Ticket :=
  m.tickets_df.map Row.toTicket

/-- The in-place row update `resolve_ticket` performs at a valid index:
`resolution`, `resolved`, `agent_name`, `ai_suggestion_helpful` are set,
and `feedback` defaults to the sentinel `"N/A"` when falsy — absent or
the empty string (`feedback if feedback else "N/A"`). -/
def resolveRow (r : Row) (resolution agent_name : String) (helpful : Bool)
    (feedback : Option String) : Row :=
  { r with resolution := some resolution, resolved := true,
           agent_name := some agent_name,
           ai_suggestion_helpful := some helpful,
           feedback := some (match feedback with
                             | some f => if f = "" then "N/A" else f
                             | none => "N/A") }

/-- `resolve_ticket`: the guard `0 <= idx < len(self.tickets_df)` raises
`TypeError` when `idx` is a string (the value app.py passes); at a valid
integer index the row is updated in place and its `Ticket` view returned
together with the updated store; otherwise the result is `None` and the
store is untouched. -/
def TicketManager.resolve_ticket (m : TicketManager) (idx : PyVal)
    (resolution agent_name : String) (helpful : Bool) (feedback : Option String) :
    Except String (Option Ticket × TicketManager) :=
  match idx with
  | .str _ => .error "TypeError: comparison of int and str"
  | .int i =>
      if 0 ≤ i ∧ i < (m.tickets_df.length : Int) then
        let r' := resolveRow (m.tickets_df.getD i.toNat default)
          resolution agent_name helpful feedback
        .ok (some r'.toTicket, { m with tickets_df := m.tickets_df.set i.toNat r' })
      else
        .ok (none, m)

/-- scikit-learn's built-in English stop-word list, selected in the source
by `TfidfVectorizer(stop_words="english")`
(`sklearn.feature_extraction.text.ENGLISH_STOP_WORDS`). -/
def englishStopWords : List String :=
  ["a", "about", "above", "across", "after", "afterwards", "again", "against",
   "all", "almost", "alone", "along", "already", "also", "although", "always",
   "am", "among", "amongst", "amoungst", "amount", "an", "and", "another",
   "any", "anyhow", "anyone", "anything", "anyway", "anywhere", "are",
   "around", "as", "at", "back", "be", "became", "because", "become",
   "becomes", "becoming", "been", "before", "beforehand", "behind", "being",
   "below", "beside", "besides", "between", "beyond", "bill", "both",
   "bottom", "but", "by", "call", "can", "cannot", "cant", "co", "con",
   "could", "couldnt", "cry", "de", "describe", "detail", "do", "done",
   "down", "due", "during", "each", "eg", "eight", "either", "eleven",
   "else", "elsewhere", "empty", "enough", "etc", "even", "ever", "every",
   "everyone", "everything", "everywhere", "except", "few", "fifteen",
   "fifty", "fill", "find", "fire", "first", "five", "for", "former",
   "formerly", "forty", "found", "four", "from", "front", "full", "further",
   "get", "give", "go", "had", "has", "hasnt", "have", "he", "hence", "her",
   "here", "hereafter", "hereby", "herein", "hereupon", "hers", "herself",
   "him", "himself", "his", "how", "however", "hundred", "i", "ie", "if",
   "in", "inc", "indeed", "interest", "into", "is", "it", "its", "itself",
   "keep", "last", "latter", "latterly", "least", "less", "ltd", "made",
   "many", "may", "me", "meanwhile", "might", "mill", "mine", "more",
   "moreover", "most", "mostly", "move", "much", "must", "my", "myself",
   "name", "namely", "neither", "never", "nevertheless", "next", "nine",
   "no", "nobody", "none", "noone", "nor", "not", "nothing", "now",
   "nowhere", "of", "off", "often", "on", "once", "one", "only", "onto",
   "or", "other", "others", "otherwise", "our", "ours", "ourselves", "out",
   "over", "own", "part", "per", "perhaps", "please", "put", "rather", "re",
   "same", "see", "seem", "seemed", "seeming", "seems", "serious",
   "several", "she", "should", "show", "side", "since", "sincere", "six",
   "sixty", "so", "some", "somehow", "someone", "something", "sometime",
   "sometimes", "somewhere", "still", "such", "system", "take", "ten",
   "than", "that", "the", "their", "them", "themselves", "then", "thence",
   "there", "thereafter", "thereby", "therefore", "therein", "thereupon",
   "these", "they", "thick", "thin", "third", "this", "those", "though",
   "three", "through", "throughout", "thru", "thus", "to", "together",
   "too", "top", "toward", "towards", "twelve", "twenty", "two", "un",
   "under", "until", "up", "upon", "us", "very", "via", "was", "we", "well",
   "were", "what", "whatever", "when", "whence", "whenever", "where",
   "whereafter", "whereas", "whereby", "wherein", "whereupon", "wherever",
   "whether", "which", "while", "whither", "who", "whoever", "whole",
   "whom", "whose", "why", "will", "with", "within", "without", "would",
   "yet", "you", "your", "yours", "yourself", "yourselves"]

/-- ASCII lowercasing of one character: the effect of the vectorizer's
`lowercase=True` preprocessing on the texts considered. -/
def toLowerChar (c : Char) : Char :=
  if 'A' ≤ c ∧ c ≤ 'Z' then Char.ofNat (c.toNat + 32) else c

/-- Word characters of the vectorizer's default token pattern (the ASCII
range of the regex word class). -/
def isWordChar (c : Char) : Bool := c.isAlphanum || c == '_'

/-- Maximal runs of word characters in a character list; `cur` holds the
current run, reversed. -/
def tokenRuns (cur : List Char) : List Char → List (List Char)
  | [] => if cur.isEmpty then [] else [cur.reverse]
  | c :: cs =>
      if isWordChar c then tokenRuns (c :: cur) cs
      else if cur.isEmpty then tokenRuns [] cs
      else cur.reverse :: tokenRuns [] cs

/-- The vectorizer's analyzer: lowercase the text, split it into maximal
word-character runs of length at least two (the default token pattern
matches two or more word characters), then drop English stop words. -/
def analyze (s : String) : List String :=
  ((tokenRuns [] (s.data.map toLowerChar)).map fun cs => String.mk cs).filter
    (fun t => 2 ≤ t.length && !(englishStopWords.contains t))

/-- All analyzed terms of all documents, in document order. -/
def corpusTerms (docs : List String) : List String :=
  (docs.map analyze).flatten

/-- The fitted vocabulary: the distinct terms surviving the analyzer.
The library keeps the vocabulary alphabetically sorted; the order of the
axes is immaterial to every dot product below, so the deduplicated
occurrence order is used. -/
def buildVocab (docs : List String) : List String :=
  (corpusTerms docs).dedup

/-- Document frequency of a term over the corpus. -/
def docFreq (docs : List String) (t : String) : ℕ :=
  (docs.filter (fun d => (analyze d).contains t)).length

/-- The smooth inverse document frequency weight.  The library computes
log((1 + n) / (1 + df)) + 1; the model replaces the logarithm by the
rational (1 + n) / (1 + df), a positive and strictly antitone-in-df
surrogate.  Every property proved in this file depends only on the weight
being positive and a function of (n, df) alone, so each verdict carries
over to the logarithmic weight. -/
def idfWeight (n df : ℕ) : ℚ := (1 + (n : ℚ)) / (1 + (df : ℚ)) + 1

/-- The tf-idf row of a token list over the fitted vocabulary, before
normalization: per vocabulary term, the raw count times the idf weight. -/
def tfidfVec (docs : List String) (toks : List String) : List ℚ :=
  (buildVocab docs).map fun t =>
    ((toks.count t : ℕ) : ℚ) * idfWeight docs.length (docFreq docs t)

/-- Dot product of two weight rows. -/
def dotp (xs ys : List ℚ) : ℚ := (List.zipWith (· * ·) xs ys).sum

/-- The squared cosine similarity of the query against document `i`.
The library L2-normalizes the tf-idf rows and takes cosine similarity,
keeping score 0 for zero vectors.  All tf-idf entries are nonnegative, so
every cosine value is nonnegative and the ordering by cosine coincides
with the ordering by its square a² / (|d|²·|q|²), which is exactly
rational. -/
def scoreSq (docs : List String) (q : String) (i : ℕ) : ℚ :=
  let qv := tfidfVec docs (analyze q)
  let dv := tfidfVec docs (analyze (docs.getD i ""))
  let a := dotp qv dv
  let u := dotp dv dv
  let v := dotp qv qv
  if u * v = 0 then 0 else a ^ 2 / (u * v)

/-- The row of similarity scores of a query against every corpus document,
in corpus order (`cosine_similarity(ticket_vector, tfidf_matrix)`,
represented by the squared cosine). -/
def simScores (docs : List String) (q : String) : List ℚ :=
  (List.range docs.length).map (scoreSq docs q)

/-- The key order of one fixed ascending argsort refinement: compare
scores, break ties by position.  numpy's `argsort` (introsort) guarantees
only ascending score order and leaves the order of equal scores
implementation-defined; its quicksort partitions scramble tie groups
larger than 16 elements, while partitions of at most 16 elements are
insertion-sorted, i.e. ordered exactly by this key.  Theorems about
arbitrary corpora therefore quantify over every admissible ascending
argsort (`isAscendingArgsort`) instead of this fixed key order. -/
def lexLe (s : List ℚ) (i j : ℕ) : Prop :=
  s.getD i 0 < s.getD j 0 ∨ (s.getD i 0 = s.getD j 0 ∧ i ≤ j)

instance (s : List ℚ) : DecidableRel (lexLe s) := fun i j =>
  decidable_of_iff (s.getD i 0 < s.getD j 0 ∨ (s.getD i 0 = s.getD j 0 ∧ i ≤ j)) Iff.rfl

/-- `similarity_scores.argsort()`, as the executable refinement used for
concrete evaluation: one admissible argsort output, the one numpy itself
produces whenever the array stays in introsort's insertion-sort regime
(at most 16 elements — the case for every concrete corpus evaluated in
this file).  For larger arrays the program's tie order may differ, so no
universal theorem below relies on this refinement's tie order. -/
def argsortAsc (s : List ℚ) : List ℕ :=
  List.insertionSort (lexLe s) (List.range s.length)

/-- The contract numpy documents for `argsort`: some permutation of the
row positions arranging the scores in ascending order.  The order of
positions with equal scores is implementation-defined, so properties of
the program must hold for every list satisfying this predicate. -/
def isAscendingArgsort (s : List ℚ) (p : List ℕ) : Prop :=
  List.Perm p (List.range s.length) ∧
  List.Sorted (fun i j => s.getD i 0 ≤ s.getD j 0) p

/-- Python's suffix slice `a[-k:]` for a natural `k`: the last `k`
elements, except that `-0` is `0`, so `k = 0` yields the whole list. -/
def pySliceLast (l : List α) (k : ℕ) : List α :=
  if k = 0 then l else l.drop (l.length - k)

/-- `argsort()[0, -top_k:][::-1]`: the row indices `find_similar_tickets`
returns, in order. -/
def rankIndices (s : List ℚ) (top_k : ℕ) : List ℕ :=
  (pySliceLast (argsortAsc s) top_k).reverse

/-- The four columns of the frame `find_similar_tickets` returns. -/
structure SimilarRow where
  ticket_id : String
  issue : String
  resolution : Option String
  description : String
  deriving DecidableEq, Repr

/-- Column selection `[["ticket_id", "issue", "resolution", "description"]]`. -/
def Row.toSimilarRow (r : Row) : SimilarRow :=
  { ticket_id := r.ticket_id, issue := r.issue,
    resolution := r.resolution, description := r.description }

/-- The column assignment of `_fit`:
`df["text"] = df["issue"] + " " + df["description"]`.  This mutates the
DataFrame held by the engine, which is the very frame the caller passed
to the constructor. -/
def addTextColumn (rows : List Row) : List Row :=
  rows.map fun r => { r with text := some (r.issue ++ " " ++ r.description) }

/-- `SimilarityEngine`: holds the (mutated) resolved-tickets DataFrame;
the fitted vocabulary and matrix are recomputed from its text column. -/
structure SimilarityEngine where
  resolved_tickets_df : List Row
  deriving DecidableEq, Repr

/-- The text column the vectorizer is fitted on. -/
def SimilarityEngine.docs (e : SimilarityEngine) : List String :=
  e.resolved_tickets_df.map fun r => r.text.getD ""

/-- `SimilarityEngine.__init__` plus `_fit`: store the caller's DataFrame,
add the `text` column to it, fit the vectorizer.  `fit_transform` raises
`ValueError: empty vocabulary` when no term survives the analyzer, in
particular on an empty corpus; the spec names this failure `EmptyCorpus`.
The second component of a successful result is the caller's DataFrame as
it stands after the call, i.e. after the mutation `_fit` performed. -/
def SimilarityEngine.init (rows : List Row) :
    Except String (SimilarityEngine × List Row) :=
  let rows' := addTextColumn rows
  let docs := rows'.map fun r => r.text.getD ""
  if buildVocab docs = [] then
    .error "ValueError: empty vocabulary; perhaps the documents only contain stop words"
  else
    .ok ({ resolved_tickets_df := rows' }, rows')

/-- `find_similar_tickets`: score the query against every document, take
`argsort()[0, -top_k:][::-1]`, and return those rows of the stored frame
restricted to the four result columns. -/
def SimilarityEngine.find_similar_tickets (e : SimilarityEngine)
    (ticket_text : String) (top_k : ℕ) : List SimilarRow :=
  (rankIndices (simScores e.docs ticket_text) top_k).map fun i =>
    (e.resolved_tickets_df.getD i default).toSimilarRow

/-- The request body of the `/resolve-ticket` endpoint. -/
structure ResolveTicketInput where
  resolution : String
  ai_suggestion_helpful : Bool
  feedback : Option String := none
  deriving DecidableEq, Repr

/-- The in-memory state the endpoint touches: the open-tickets store and
the resolved-records log of the ticket service. -/
structure AppState where
  newTicketManager : TicketManager
  resolvedLog : List Row
  deriving DecidableEq, Repr

/-- The dictionary appended to the resolved log on the endpoint's success
branch: the resolved ticket's fields with `resolved = True`, the fixed
agent name, and Python's `or "N/A"` defaulting (an empty string is falsy,
hence also replaced). -/
def resolvedDictRow (t : Ticket) (inp : ResolveTicketInput) : Row :=
  { ticket_id := t.ticket_id, issue := t.issue, description := t.description,
    resolved := true,
    resolution := some (if inp.resolution = "" then "N/A" else inp.resolution),
    agent_name := some "Alex Sheldrick",
    ai_suggestion_helpful := some inp.ai_suggestion_helpful,
    feedback := some (match inp.feedback with
                      | some f => if f = "" then "N/A" else f
                      | none => "N/A") }

/-- The `/resolve-ticket` endpoint of app.py.  It calls
`NewTicketManager.resolve_ticket(ticket_id, ...)`, passing the string
ticket id as the first positional parameter, which is the integer index
`idx`.  Any exception inside the handler, the `TypeError` from the
`0 <= idx` guard included, is caught by the blanket `except` and turned
into an HTTP 500 response, leaving the store and the log untouched.  On
the success branch (reachable only were `resolve_ticket` to accept the
identifier) the resolved dictionary is appended to the log and the rows
bearing the id are dropped from the open store. -/
def resolveTicketEndpoint (ticket_id : String) (inp : ResolveTicketInput)
    (st : AppState) : Except Nat String × AppState :=
  match st.newTicketManager.resolve_ticket (.str ticket_id) inp.resolution
      "Alex Sheldrick" inp.ai_suggestion_helpful inp.feedback with
  | .error _ => (.error 500, st)
  | .ok (none, m') => (.error 500, { st with newTicketManager := m' })
  | .ok (some t, m') =>
      (.ok "Ticket resolved successfully",
       { newTicketManager :=
           { m' with tickets_df :=
               m'.tickets_df.filter (fun r => r.ticket_id != ticket_id) },
         resolvedLog := st.resolvedLog ++ [resolvedDictRow t inp] })

/-! Concrete stores, corpora and queries used to instantiate and to refute
the claims. -/

/-- A store holding one ticket with id `"A"`. -/
def mC2 : TicketManager := { tickets_df := [{ ticket_id := "A", issue := "x", description := "y", resolved := false }] }

/-- A ticket whose id `"A"` duplicates the one already stored in `mC2`. -/
def tC2 : Ticket := { ticket_id := "A", issue := "x2", description := "y2", resolved := false }

/-- A store holding one already-resolved ticket. -/
def mC3 : TicketManager := { tickets_df := [{ ticket_id := "A", issue := "x", description := "y", resolved := true, resolution := some "done", agent_name := some "ag", ai_suggestion_helpful := some true, feedback := some "fine" }] }

/-- A store holding two open tickets with ids `"A"` and `"B"`. -/
def mC9 : TicketManager := { tickets_df := [{ ticket_id := "A", issue := "x", description := "y", resolved := false }, { ticket_id := "B", issue := "z", description := "w", resolved := false }] }

/-- A store in which two records share the id `"A"`. -/
def mC10 : TicketManager := { tickets_df := [{ ticket_id := "A", issue := "first", description := "d1", resolved := false }, { ticket_id := "A", issue := "second", description := "d2", resolved := false }, { ticket_id := "B", issue := "third", description := "d3", resolved := false }] }

/-- Two corpus entries with identical document text (distinct ids): their
tf-idf vectors are componentwise equal, so their similarity scores tie for
every query. -/
def rowsC1 : List Row :=
  [{ ticket_id := "T1", issue := "printer jam", description := "paper stuck", resolved := true },
   { ticket_id := "T2", issue := "printer jam", description := "paper stuck", resolved := true }]

/-- The document text shared by both entries of `rowsC1`. -/
def qC1 : String := "printer jam paper stuck"

/-- The engine built over `rowsC1` (the value `SimilarityEngine.init rowsC1`
returns). -/
def engineC1 : SimilarityEngine := { resolved_tickets_df := addTextColumn rowsC1 }

/-- A one-entry corpus. -/
def rowsC4 : List Row :=
  [{ ticket_id := "S1", issue := "printer jam", description := "paper stuck", resolved := true }]

/-- The engine built over `rowsC4`. -/
def engineC4 : SimilarityEngine := { resolved_tickets_df := addTextColumn rowsC4 }

/-- A corpus row that carries no `text` column yet. -/
def rowsC6 : List Row :=
  [{ ticket_id := "K1", issue := "printer jam", description := "paper stuck", resolved := true }]

/-- A one-entry corpus whose issue text contains a stop word (`"down"`). -/
def rowsC7 : List Row :=
  [{ ticket_id := "W7", issue := "network down", description := "cable unplugged", resolved := true }]

/-- A one-entry corpus used to instantiate the self-query ranking. -/
def rowsC8 : List Row :=
  [{ ticket_id := "S8", issue := "printer", description := "jam paper", resolved := true }]

/-- The engine built over `rowsC8`. -/
def engineC8 : SimilarityEngine := { resolved_tickets_df := addTextColumn rowsC8 }

/-! Order-theoretic facts about the argsort key order. -/

instance (s : List ℚ) : IsTrans ℕ (lexLe s) :=
  ⟨by
    intro a b c hab hbc
    rcases hab with h1 | ⟨h1, h1'⟩ <;> rcases hbc with h2 | ⟨h2, h2'⟩
    · exact Or.inl (h1.trans h2)
    · exact Or.inl (h2 ▸ h1)
    · exact Or.inl (h1 ▸ h2)
    · exact Or.inr ⟨h1.trans h2, h1'.trans h2'⟩⟩

instance (s : List ℚ) : IsTotal ℕ (lexLe s) :=
  ⟨by
    intro a b
    rcases lt_trichotomy (s.getD a 0) (s.getD b 0) with h | h | h
    · exact Or.inl (Or.inl h)
    · rcases Nat.le_total a b with h' | h'
      · exact Or.inl (Or.inr ⟨h, h'⟩)
      · exact Or.inr (Or.inr ⟨h.symm, h'⟩)
    · exact Or.inr (Or.inl h)⟩

/-! Claims about the record store (ticket_manager.py). -/

/-- C2 (counterexample): adding a ticket whose id `"A"` is already present
succeeds and changes the store: the source performs no duplicate check, so
no `DuplicateId` failure occurs and the store gains a second row with the
same id. -/
theorem add_ticket_duplicate_cex :
    (mC2.add_ticket tC2).tickets_df ≠ mC2.tickets_df ∧
    (mC2.add_ticket tC2).tickets_df.length = 2 ∧
    ((mC2.add_ticket tC2).tickets_df.filter (fun r => r.ticket_id == "A")).length = 2 := by
  decide

/-- C2 (amended): `add_ticket` performs no duplicate-id check: adding a
record whose id already occurs in the store always succeeds and appends,
so the number of rows bearing that id grows by one and reaches at least
two; the store does not stay unchanged. -/
theorem add_ticket_duplicate_appends (m : TicketManager) (t : Ticket)
    (hdup : ∃ r ∈ m.tickets_df, r.ticket_id = t.ticket_id) :
    (m.add_ticket t).tickets_df ≠ m.tickets_df ∧
    ((m.add_ticket t).tickets_df.filter (fun r => r.ticket_id == t.ticket_id)).length =
      (m.tickets_df.filter (fun r => r.ticket_id == t.ticket_id)).length + 1 ∧
    2 ≤ ((m.add_ticket t).tickets_df.filter (fun r => r.ticket_id == t.ticket_id)).length := by
  obtain ⟨r, hr, hid⟩ := hdup
  have hfilter : (m.add_ticket t).tickets_df.filter (fun r => r.ticket_id == t.ticket_id) =
      m.tickets_df.filter (fun r => r.ticket_id == t.ticket_id) ++ [t.toRow] := by
    simp [TicketManager.add_ticket, List.filter_append, Ticket.toRow]
  have hpos : 0 < (m.tickets_df.filter (fun r => r.ticket_id == t.ticket_id)).length := by
    have hmem : r ∈ m.tickets_df.filter (fun r => r.ticket_id == t.ticket_id) :=
      List.mem_filter.mpr ⟨hr, by simp [hid]⟩
    exact List.length_pos.mpr (List.ne_nil_of_mem hmem)
  refine ⟨?_, ?_, ?_⟩
  · intro h
    have := congrArg List.length h
    simp [TicketManager.add_ticket] at this
  · simp [hfilter]
  · rw [hfilter]
    simp only [List.length_append, List.length_singleton]
    omega

/-- C2 (witness): the amended statement instantiated at the concrete
store `mC2` and duplicate ticket `tC2`. -/
theorem add_ticket_duplicate_appends_witness :
    (mC2.add_ticket tC2).tickets_df ≠ mC2.tickets_df ∧
    ((mC2.add_ticket tC2).tickets_df.filter (fun r => r.ticket_id == tC2.ticket_id)).length =
      (mC2.tickets_df.filter (fun r => r.ticket_id == tC2.ticket_id)).length + 1 ∧
    2 ≤ ((mC2.add_ticket tC2).tickets_df.filter (fun r => r.ticket_id == tC2.ticket_id)).length :=
  add_ticket_duplicate_appends mC2 tC2 (by decide)

/-- C3 (counterexample): resolving the already-resolved record at index 0
does not fail with the not-found signal: it succeeds again, overwriting
the resolution fields and returning the ticket. -/
theorem resolve_resolved_cex :
    mC3.resolve_ticket (.int 0) "again" "ag2" false none =
      .ok (some { ticket_id := "A", issue := "x", description := "y", resolved := true },
           { tickets_df := [{ ticket_id := "A", issue := "x", description := "y",
                              resolved := true, resolution := some "again",
                              agent_name := some "ag2",
                              ai_suggestion_helpful := some false,
                              feedback := some "N/A" }],
             current_index := 0 }) := by
  rfl

/-- C3 (amended): `resolve_ticket` returns the not-found signal (`None`
with the store untouched) exactly when the integer index is out of range;
at any valid index it succeeds regardless of the record's current
`resolved` state (re-resolution is an idempotent overwrite, not a
rejection), every returned ticket has `resolved = true`, and the updated
row keeps `resolved = true`, so no record ever leaves the resolved
state. -/
theorem resolve_ticket_spec (m : TicketManager) (i : Int)
    (res ag : String) (hp : Bool) (fb : Option String) :
    (m.resolve_ticket (.int i) res ag hp fb = .ok (none, m) ↔
      ¬ (0 ≤ i ∧ i < (m.tickets_df.length : Int))) ∧
    (∀ t m', m.resolve_ticket (.int i) res ag hp fb = .ok (some t, m') →
      t.resolved = true ∧ (m'.tickets_df.getD i.toNat default).resolved = true ∧
      m'.tickets_df.length = m.tickets_df.length) := by
  by_cases h : 0 ≤ i ∧ i < (m.tickets_df.length : Int)
  · have hlt : i.toNat < m.tickets_df.length := by omega
    constructor
    · simp only [TicketManager.resolve_ticket, if_pos h]
      constructor
      · intro heq
        simp only [Except.ok.injEq, Prod.mk.injEq] at heq
        exact absurd heq.1 (by simp)
      · intro hcontra
        exact absurd h hcontra
    · intro t m' heq
      simp only [TicketManager.resolve_ticket, if_pos h, Except.ok.injEq, Prod.mk.injEq,
        Option.some.injEq] at heq
      obtain ⟨ht, hm⟩ := heq
      subst ht
      subst hm
      refine ⟨rfl, ?_, by simp⟩
      have hset : (m.tickets_df.set i.toNat
          (resolveRow (m.tickets_df.getD i.toNat default) res ag hp fb)).getD i.toNat default =
          resolveRow (m.tickets_df.getD i.toNat default) res ag hp fb := by
        rw [List.getD_eq_getElem?_getD, List.getElem?_set_self (by simpa using hlt)]
        rfl
      rw [hset]
      rfl
  · constructor
    · simp [TicketManager.resolve_ticket, if_neg h, h]
    · intro t m' heq
      simp only [TicketManager.resolve_ticket, if_neg h, Except.ok.injEq, Prod.mk.injEq] at heq
      exact absurd heq.1 (by simp)

/-- C3 (witness): resolving at the out-of-range index 2 of a one-record
store returns the not-found signal and leaves the store unchanged. -/
theorem resolve_ticket_spec_witness :
    mC3.resolve_ticket (.int 2) "r" "a" true none = .ok (none, mC3) :=
  (resolve_ticket_spec mC3 2 "r" "a" true none).1.mpr (by decide)

/-- C9: removing a ticket id that matches no record is a no-op: the
filter keeps every row, so the store after the call equals the store
before it. -/
theorem drop_ticket_missing_noop (m : TicketManager) (tid : String)
    (h : ∀ r ∈ m.tickets_df, r.ticket_id ≠ tid) :
    m.drop_ticket_by_id tid = m := by
  obtain ⟨df, ci⟩ := m
  simp only [TicketManager.drop_ticket_by_id, TicketManager.mk.injEq, and_true]
  exact List.filter_eq_self.mpr (fun r hr => by simpa using h r hr)

/-- C9 (witness): dropping the absent id `"Z"` from a two-record store
returns the store unchanged. -/
theorem drop_ticket_missing_noop_witness :
    mC9.drop_ticket_by_id "Z" = mC9 :=
  drop_ticket_missing_noop mC9 "Z" (by decide)

theorem filter_head_of_first {α : Type} [Inhabited α] (p : α → Bool) :
    ∀ (l : List α) (i : ℕ), i < l.length → p (l.getD i default) = true →
      (∀ j, j < i → p (l.getD j default) = false) →
      (l.filter p).head? = some (l.getD i default)
  | a :: tl, 0, _, hp, _ => by
      simp only [List.getD_cons_zero] at hp ⊢
      rw [List.filter_cons, if_pos (by simp [hp])]
      rfl
  | a :: tl, i + 1, hi, hp, hbefore => by
      have ha : p a = false := by simpa using hbefore 0 (Nat.succ_pos i)
      rw [List.filter_cons, if_neg (by simp [ha])]
      simpa using filter_head_of_first p tl i (by simpa using hi) (by simpa using hp)
        (fun j hj => by simpa using hbefore (j + 1) (Nat.succ_lt_succ hj))

/-- C10: with duplicate ids possible (insertion never checks), the lookup
`get_ticket_by_id` returns the earliest matching row in store order, and
`drop_ticket_by_id` removes every row bearing the id: no row with that id
survives the call. -/
theorem get_first_and_drop_all (m : TicketManager) (tid : String) (i : ℕ)
    (hi : i < m.tickets_df.length)
    (hmatch : (m.tickets_df.getD i default).ticket_id = tid)
    (hbefore : ∀ j, j < i → (m.tickets_df.getD j default).ticket_id ≠ tid) :
    m.get_ticket_by_id tid = some (m.tickets_df.getD i default).toTicket ∧
    ∀ r ∈ (m.drop_ticket_by_id tid).tickets_df, r.ticket_id ≠ tid := by
  constructor
  · have hhead := filter_head_of_first (fun r => r.ticket_id == tid) m.tickets_df i hi
      (by simp only [beq_iff_eq]; exact hmatch)
      (fun j hj => by simp only [beq_eq_false_iff_ne, ne_eq]; exact hbefore j hj)
    simp [TicketManager.get_ticket_by_id, hhead]
  · intro r hr
    have := (List.mem_filter.mp hr).2
    simpa using this

/-- C10 (witness): in a store whose first two rows share id `"A"`, the
lookup returns the earliest row and the drop removes both. -/
theorem get_first_and_drop_all_witness :
    mC10.get_ticket_by_id "A" = some (mC10.tickets_df.getD 0 default).toTicket ∧
    ∀ r ∈ (mC10.drop_ticket_by_id "A").tickets_df, r.ticket_id ≠ "A" :=
  get_first_and_drop_all mC10 "A" 0 (by decide) (by decide)
    (fun j hj => absurd hj (Nat.not_lt_zero j))

/-- C5: the `/resolve-ticket` endpoint can never succeed: it passes the
string ticket id as `resolve_ticket`'s integer index, the guard
`0 <= idx` raises `TypeError`, the blanket `except` converts it into an
HTTP 500 response, and both the open store and the resolved log are left
exactly as they were — no record is removed from the open view and
nothing is appended to the resolved log. -/
theorem resolve_endpoint_always_500 (tid : String) (inp : ResolveTicketInput)
    (st : AppState) :
    resolveTicketEndpoint tid inp st = (.error 500, st) := rfl

/-! Claims about the similarity engine (similarity.py). -/

theorem pySliceLast_sublist (l : List α) (k : ℕ) : List.Sublist (pySliceLast l k) l := by
  unfold pySliceLast
  split
  · exact List.Sublist.refl l
  · exact List.drop_sublist _ l

theorem argsortAsc_sorted (s : List ℚ) : List.Sorted (lexLe s) (argsortAsc s) :=
  List.sorted_insertionSort (lexLe s) (List.range s.length)

theorem argsortAsc_perm (s : List ℚ) : List.Perm (argsortAsc s) (List.range s.length) :=
  List.perm_insertionSort (lexLe s) (List.range s.length)

theorem argsortAsc_length (s : List ℚ) : (argsortAsc s).length = s.length := by
  rw [(argsortAsc_perm s).length_eq, List.length_range]

theorem rankIndices_length (s : List ℚ) (k : ℕ) :
    (rankIndices s k).length = if k = 0 then s.length else min k s.length := by
  unfold rankIndices pySliceLast
  by_cases hk : k = 0
  · simp [hk, argsortAsc_length]
  · rw [if_neg hk, if_neg hk, List.length_reverse, List.length_drop, argsortAsc_length]
    omega

theorem simScores_length (docs : List String) (q : String) :
    (simScores docs q).length = docs.length := by
  simp [simScores]

theorem argsortAsc_isAscending (s : List ℚ) : isAscendingArgsort s (argsortAsc s) :=
  ⟨argsortAsc_perm s,
   (argsortAsc_sorted s).imp (by
     rintro a b (h | ⟨h, _⟩)
     · exact le_of_lt h
     · exact le_of_eq h)⟩

/-- C1 (amended): the sequence returned by `find_similar_tickets` is
ordered by non-increasing similarity score, and this holds for every
admissible output of the ascending argsort — numpy guarantees only
ascending score order, leaving the order of equal scores
implementation-defined, so no universal tie order exists; on small
corpora (numpy's insertion-sort regime, as in the counterexample) equal
scores come back latest-first, the reverse of the claimed order.  The
executable refinement `argsortAsc` is one admissible argsort output. -/
theorem find_similar_sorted (e : SimilarityEngine) (q : String) (k : ℕ) :
    isAscendingArgsort (simScores e.docs q) (argsortAsc (simScores e.docs q)) ∧
    ∀ p : List ℕ, isAscendingArgsort (simScores e.docs q) p →
      List.Pairwise
        (fun i j => (simScores e.docs q).getD j 0 ≤ (simScores e.docs q).getD i 0)
        ((pySliceLast p k).reverse) := by
  refine ⟨argsortAsc_isAscending _, ?_⟩
  intro p hp
  rw [List.pairwise_reverse]
  exact List.Pairwise.sublist (pySliceLast_sublist p k) hp.2

/-- C1 (witness): the descending-order statement instantiated at the
executable argsort of the concrete two-entry corpus with `top_k = 2`,
whose admissibility is the theorem's own first conjunct. -/
theorem find_similar_sorted_witness :
    List.Pairwise
      (fun i j => (simScores engineC1.docs qC1).getD j 0 ≤ (simScores engineC1.docs qC1).getD i 0)
      ((pySliceLast (argsortAsc (simScores engineC1.docs qC1)) 2).reverse) :=
  (find_similar_sorted engineC1 qC1 2).2 _ (find_similar_sorted engineC1 qC1 2).1

/-- C4 (amended): for a corpus of N entries, `find_similar_tickets`
returns exactly `min(top_k, N)` results when `top_k ≥ 1` — in particular
all N entries when `top_k` exceeds N — but when `top_k = 0` the Python
slice `[-0:]` wraps to the whole array, so all N entries are returned
instead of zero. -/
theorem find_similar_count (e : SimilarityEngine) (q : String) (k : ℕ) :
    (e.find_similar_tickets q k).length =
      if k = 0 then e.resolved_tickets_df.length
      else min k e.resolved_tickets_df.length := by
  have hdocs : e.docs.length = e.resolved_tickets_df.length := by
    simp [SimilarityEngine.docs]
  simp only [SimilarityEngine.find_similar_tickets, List.length_map, rankIndices_length,
    simScores_length, hdocs]

/-- C4 (counterexample): on a one-entry corpus, asking for `top_k = 0`
returns one entry, not zero. -/
theorem find_similar_topk_zero_cex :
    (engineC4.find_similar_tickets "paper stuck in printer" 0).length = 1 := by
  have hdocs : engineC4.docs.length = 1 := by decide
  simp [SimilarityEngine.find_similar_tickets, rankIndices_length, simScores_length, hdocs]

theorem map_eq_self_mem {α : Type} {f : α → α} :
    ∀ {l : List α}, l.map f = l → ∀ a ∈ l, f a = a := by
  intro l
  induction l with
  | nil => intro _ a ha; exact absurd ha (List.not_mem_nil a)
  | cons b tl ih =>
      intro h a ha
      simp only [List.map_cons, List.cons.injEq] at h
      rcases List.mem_cons.mp ha with rfl | ha
      · exact h.1
      · exact ih h.2 a ha

theorem init_ok_parts {rows rows' : List Row} {e : SimilarityEngine}
    (hinit : SimilarityEngine.init rows = .ok (e, rows')) :
    rows' = addTextColumn rows ∧ e.resolved_tickets_df = rows' := by
  simp only [SimilarityEngine.init] at hinit
  split at hinit
  · exact absurd hinit (by simp)
  · simp only [Except.ok.injEq, Prod.mk.injEq] at hinit
    obtain ⟨he, hrows⟩ := hinit
    subst hrows
    exact ⟨rfl, he.symm ▸ rfl⟩

/-- C6 (amended): building the similarity index mutates the corpus input:
`_fit` assigns the derived `text` column (issue ++ " " ++ description)
onto the caller's DataFrame, and the engine keeps that same mutated frame
rather than an independent frozen copy — so any corpus whose rows did not
already carry exactly that `text` value is changed by construction. -/
theorem init_mutates_corpus (rows rows' : List Row) (e : SimilarityEngine)
    (hinit : SimilarityEngine.init rows = .ok (e, rows')) :
    rows' = addTextColumn rows ∧ e.resolved_tickets_df = rows' ∧
    ((∃ r ∈ rows, r.text ≠ some (r.issue ++ " " ++ r.description)) → rows' ≠ rows) := by
  obtain ⟨h1, h2⟩ := init_ok_parts hinit
  subst h1
  refine ⟨rfl, h2, ?_⟩
  rintro ⟨r, hr, hne⟩ heq
  have hfix : ({ r with text := some (r.issue ++ " " ++ r.description) } : Row) = r :=
    map_eq_self_mem (l := rows) heq r hr
  exact hne ((congrArg Row.text hfix).symm ▸ rfl)

/-- C6 (counterexample): building the engine over a corpus whose row has
no `text` column succeeds but hands back a changed DataFrame: the claim
that construction leaves the corpus input unchanged fails. -/
theorem init_mutation_cex :
    SimilarityEngine.init rowsC6 =
      .ok ({ resolved_tickets_df := addTextColumn rowsC6 }, addTextColumn rowsC6) ∧
    addTextColumn rowsC6 ≠ rowsC6 := by
  constructor
  · rfl
  · decide

/-- C6 (witness): the amended statement instantiated at the one-row
corpus `rowsC6`. -/
theorem init_mutates_corpus_witness :
    addTextColumn rowsC6 = addTextColumn rowsC6 ∧
    ({ resolved_tickets_df := addTextColumn rowsC6 } : SimilarityEngine).resolved_tickets_df =
      addTextColumn rowsC6 ∧
    ((∃ r ∈ rowsC6, r.text ≠ some (r.issue ++ " " ++ r.description)) →
      addTextColumn rowsC6 ≠ rowsC6) :=
  init_mutates_corpus rowsC6 (addTextColumn rowsC6)
    { resolved_tickets_df := addTextColumn rowsC6 } rfl

theorem mem_buildVocab {docs : List String} {d t : String}
    (hd : d ∈ docs) (ht : t ∈ analyze d) : t ∈ buildVocab docs := by
  simp only [buildVocab, List.mem_dedup, corpusTerms, List.mem_flatten]
  exact ⟨analyze d, List.mem_map.mpr ⟨d, hd, rfl⟩, ht⟩

/-- C7: building the index against an empty corpus fails (the vectorizer
raises on the empty vocabulary — the failure the spec names
`EmptyCorpus`), while building against any corpus containing an entry
with at least one surviving non-stop-word term succeeds. -/
theorem init_empty_fails_and_nonempty_ok :
    SimilarityEngine.init ([] : List Row) =
      .error "ValueError: empty vocabulary; perhaps the documents only contain stop words" ∧
    ∀ (rows : List Row) (r : Row), r ∈ rows →
      analyze (r.issue ++ " " ++ r.description) ≠ [] →
      ∃ e : SimilarityEngine, SimilarityEngine.init rows = .ok (e, addTextColumn rows) := by
  constructor
  · rfl
  · intro rows r hr hne
    obtain ⟨t, ht⟩ := List.exists_mem_of_ne_nil _ hne
    have hdoc : (r.issue ++ " " ++ r.description) ∈
        (addTextColumn rows).map (fun r => r.text.getD "") := by
      simp only [addTextColumn, List.map_map]
      exact List.mem_map.mpr ⟨r, hr, rfl⟩
    have hvocab : buildVocab ((addTextColumn rows).map fun r => r.text.getD "") ≠ [] :=
      List.ne_nil_of_mem (mem_buildVocab hdoc ht)
    refine ⟨{ resolved_tickets_df := addTextColumn rows }, ?_⟩
    simp only [SimilarityEngine.init]
    rw [if_neg hvocab]

/-- C7 (witness): the empty corpus fails, and the one-entry corpus
`rowsC7` (whose text contains the stop word "down" along with surviving
terms) builds successfully. -/
theorem init_empty_fails_witness :
    ∃ e : SimilarityEngine, SimilarityEngine.init rowsC7 = .ok (e, addTextColumn rowsC7) :=
  init_empty_fails_and_nonempty_ok.2 rowsC7
    { ticket_id := "W7", issue := "network down", description := "cable unplugged",
      resolved := true }
    (by decide) (by decide)

/-! Concrete score evaluation over the two-identical-entry corpus. -/

theorem analyze_qC1 : analyze qC1 = ["printer", "jam", "paper", "stuck"] := by decide

theorem tfidf_qC1 : tfidfVec [qC1, qC1] (analyze qC1) = [2, 2, 2, 2] := by
  have hvocab : buildVocab [qC1, qC1] = ["printer", "jam", "paper", "stuck"] := by decide
  have hf1 : docFreq [qC1, qC1] "printer" = 2 := by decide
  have hf2 : docFreq [qC1, qC1] "jam" = 2 := by decide
  have hf3 : docFreq [qC1, qC1] "paper" = 2 := by decide
  have hf4 : docFreq [qC1, qC1] "stuck" = 2 := by decide
  have hc1 : (["printer", "jam", "paper", "stuck"].count "printer") = 1 := by decide
  have hc2 : (["printer", "jam", "paper", "stuck"].count "jam") = 1 := by decide
  have hc3 : (["printer", "jam", "paper", "stuck"].count "paper") = 1 := by decide
  have hc4 : (["printer", "jam", "paper", "stuck"].count "stuck") = 1 := by decide
  have hidf : idfWeight 2 2 = 2 := by norm_num [idfWeight]
  simp only [tfidfVec, hvocab, analyze_qC1, List.map_cons, List.map_nil,
    List.length_cons, List.length_nil, hf1, hf2, hf3, hf4, hc1, hc2, hc3, hc4, hidf]
  norm_num [hidf]

theorem dotp_two_four : dotp [(2 : ℚ), 2, 2, 2] [(2 : ℚ), 2, 2, 2] = 16 := by
  norm_num [dotp]

theorem simScores_rowsC1 : simScores engineC1.docs qC1 = [1, 1] := by
  have hdocs : engineC1.docs = [qC1, qC1] := by decide
  have h0 : scoreSq [qC1, qC1] qC1 0 = 1 := by
    have hget : [qC1, qC1].getD 0 "" = qC1 := rfl
    simp only [scoreSq, hget, tfidf_qC1, dotp_two_four]
    norm_num
  have h1 : scoreSq [qC1, qC1] qC1 1 = 1 := by
    have hget : [qC1, qC1].getD 1 "" = qC1 := rfl
    simp only [scoreSq, hget, tfidf_qC1, dotp_two_four]
    norm_num
  have hrange : List.range 2 = [0, 1] := rfl
  rw [hdocs]
  simp [simScores, hrange, h0, h1]

/-- C1 (counterexample): on a corpus of two entries with identical
document text, every query scores them equally, yet `find_similar_tickets`
returns the later entry `"T2"` before the earlier entry `"T1"`: equal
scores appear in reverse insertion order, not earliest first. -/
theorem find_similar_tiebreak_cex :
    (simScores engineC1.docs qC1).getD 0 0 = (simScores engineC1.docs qC1).getD 1 0 ∧
    (engineC1.find_similar_tickets qC1 2).map SimilarRow.ticket_id = ["T2", "T1"] := by
  refine ⟨by rw [simScores_rowsC1]; rfl, ?_⟩
  simp only [SimilarityEngine.find_similar_tickets]
  rw [simScores_rowsC1]
  decide

/-- C8 (counterexample): querying with the document text of corpus entry 0
(`"T1"`) does not rank that entry first: its duplicate-text neighbour
`"T2"` ties at the maximal score and, being later in insertion order, is
returned first. -/
theorem self_query_first_cex :
    qC1 = (rowsC1.getD 0 default).issue ++ " " ++ (rowsC1.getD 0 default).description ∧
    (rowsC1.getD 0 default).ticket_id = "T1" ∧
    ((engineC1.find_similar_tickets qC1 3).map SimilarRow.ticket_id).head? = some "T2" := by
  refine ⟨by decide, by decide, ?_⟩
  simp only [SimilarityEngine.find_similar_tickets]
  rw [simScores_rowsC1]
  decide

/-! The Cauchy-Schwarz bound for dot products of weight rows, and the
placement of the maximal score by the argsort. -/

theorem dotp_cons (x y : ℚ) (xs ys : List ℚ) :
    dotp (x :: xs) (y :: ys) = x * y + dotp xs ys := by
  simp [dotp]

theorem dotp_self_nonneg (v : List ℚ) : 0 ≤ dotp v v := by
  induction v with
  | nil => simp [dotp]
  | cons x xs ih =>
      rw [dotp_cons]
      nlinarith [mul_self_nonneg x]

theorem cs_step (x y d a b : ℚ) (h : d ^ 2 ≤ a * b) (ha : 0 ≤ a) (hb : 0 ≤ b) :
    (x * y + d) ^ 2 ≤ (x * x + a) * (y * y + b) := by
  rcases eq_or_lt_of_le hb with hb0 | hbpos
  · have hd2 : d ^ 2 ≤ 0 := by
      calc d ^ 2 ≤ a * b := h
      _ = 0 := by rw [← hb0, mul_zero]
    have hd : d = 0 := by
      have := sq_nonneg d
      have hzero : d ^ 2 = 0 := le_antisymm hd2 (sq_nonneg d)
      exact pow_eq_zero_iff (two_ne_zero) |>.mp hzero
    subst hd
    rw [← hb0]
    nlinarith [mul_nonneg ha (sq_nonneg y)]
  · nlinarith [sq_nonneg (x * b - y * d), mul_nonneg (sub_nonneg.mpr h) (sq_nonneg y),
      mul_nonneg (sub_nonneg.mpr h) (le_of_lt hbpos), hbpos]

theorem dotp_sq_le (xs : List ℚ) : ∀ ys : List ℚ, (dotp xs ys) ^ 2 ≤ dotp xs xs * dotp ys ys := by
  induction xs with
  | nil => intro ys; simp [dotp]
  | cons x xs ih =>
      intro ys
      cases ys with
      | nil => simp [dotp]
      | cons y ys =>
          rw [dotp_cons, dotp_cons, dotp_cons]
          exact cs_step x y (dotp xs ys) (dotp xs xs) (dotp ys ys) (ih ys)
            (dotp_self_nonneg xs) (dotp_self_nonneg ys)

theorem scoreSq_le_one (docs : List String) (q : String) (i : ℕ) :
    scoreSq docs q i ≤ 1 := by
  simp only [scoreSq]
  by_cases h : dotp (tfidfVec docs (analyze (docs.getD i "")))
      (tfidfVec docs (analyze (docs.getD i ""))) *
      dotp (tfidfVec docs (analyze q)) (tfidfVec docs (analyze q)) = 0
  · rw [if_pos h]; norm_num
  · rw [if_neg h]
    have hu := dotp_self_nonneg (tfidfVec docs (analyze (docs.getD i "")))
    have hv := dotp_self_nonneg (tfidfVec docs (analyze q))
    have hpos : 0 < dotp (tfidfVec docs (analyze (docs.getD i "")))
        (tfidfVec docs (analyze (docs.getD i ""))) *
        dotp (tfidfVec docs (analyze q)) (tfidfVec docs (analyze q)) :=
      lt_of_le_of_ne (mul_nonneg hu hv) (Ne.symm h)
    rw [div_le_one hpos]
    calc dotp (tfidfVec docs (analyze q)) (tfidfVec docs (analyze (docs.getD i ""))) ^ 2
        ≤ dotp (tfidfVec docs (analyze q)) (tfidfVec docs (analyze q)) *
          dotp (tfidfVec docs (analyze (docs.getD i "")))
            (tfidfVec docs (analyze (docs.getD i ""))) := dotp_sq_le _ _
    _ = _ := mul_comm _ _

theorem scoreSq_self (docs : List String) (i : ℕ)
    (h : dotp (tfidfVec docs (analyze (docs.getD i "")))
      (tfidfVec docs (analyze (docs.getD i ""))) ≠ 0) :
    scoreSq docs (docs.getD i "") i = 1 := by
  simp only [scoreSq]
  rw [if_neg (mul_ne_zero h h), pow_two, div_self (mul_ne_zero h h)]

theorem simScores_getD (docs : List String) (q : String) (j : ℕ) (hj : j < docs.length) :
    (simScores docs q).getD j 0 = scoreSq docs q j := by
  rw [simScores, List.getD_eq_getElem?_getD, List.getElem?_map]
  rw [List.getElem?_range hj]
  rfl

theorem sorted_rel_getLast {α : Type} {r : α → α → Prop} :
    ∀ {l : List α}, List.Sorted r l → ∀ {a : α}, a ∈ l → ∀ h : l ≠ [],
      a = l.getLast h ∨ r a (l.getLast h) := by
  intro l
  induction l with
  | nil => intro _ a ha; exact absurd ha (List.not_mem_nil a)
  | cons b tl ih =>
      intro hs a ha h
      cases tl with
      | nil =>
          rcases List.mem_cons.mp ha with rfl | h'
          · exact Or.inl rfl
          · exact absurd h' (List.not_mem_nil a)
      | cons c tl' =>
          have hlast : (b :: c :: tl').getLast h = (c :: tl').getLast (by simp) :=
            List.getLast_cons (by simp)
          rcases List.mem_cons.mp ha with rfl | hmem
          · right
            rw [hlast]
            exact (List.sorted_cons.mp hs).1 _ (List.getLast_mem _)
          · rcases ih (List.sorted_cons.mp hs).2 hmem (by simp) with heq | hrel
            · left; rw [hlast]; exact heq
            · right; rw [hlast]; exact hrel

theorem getLast?_drop : ∀ (l : List α) (m : ℕ), m < l.length →
    (l.drop m).getLast? = l.getLast?
  | _, 0, _ => by rw [List.drop_zero]
  | a :: t, m + 1, h => by
      have ht : m < t.length := by simpa using h
      rw [List.drop_succ_cons, getLast?_drop t m ht]
      cases t with
      | nil => simp at ht
      | cons b t' => rw [List.getLast?_cons_cons]

theorem asc_getLast_unique_max (s : List ℚ) (p : List ℕ)
    (hp : isAscendingArgsort s p) (i : ℕ) (hi : i < s.length)
    (hmax : ∀ j, j < s.length → j ≠ i → s.getD j 0 < s.getD i 0) :
    p.getLast? = some i := by
  have hlen : p.length = s.length := by rw [hp.1.length_eq, List.length_range]
  have hne : p ≠ [] := by
    intro h
    rw [h] at hlen
    simp at hlen
    omega
  have hmem_i : i ∈ p := hp.1.mem_iff.mpr (List.mem_range.mpr hi)
  have hlast_mem : p.getLast hne ∈ p := List.getLast_mem hne
  have hlast_lt : p.getLast hne < s.length :=
    List.mem_range.mp (hp.1.mem_iff.mp hlast_mem)
  by_cases hx : p.getLast hne = i
  · rw [List.getLast?_eq_getLast _ hne, hx]
  · rcases sorted_rel_getLast hp.2 hmem_i hne with heq | hrel
    · exact absurd heq.symm hx
    · exact absurd hrel (not_le.mpr (hmax _ hlast_lt hx))

theorem ascSlice_head {α : Type} (p : List α) (k : ℕ) (hk : 1 ≤ k) (hne : p ≠ []) :
    ((pySliceLast p k).reverse).head? = p.getLast? := by
  rw [List.head?_reverse]
  unfold pySliceLast
  rw [if_neg (by omega)]
  exact getLast?_drop _ _ (by have := List.length_pos.mpr hne; omega)

/-- C8 (amended): a query identical to a corpus entry's own document text
(issue ++ " " ++ description) gives that entry the maximal similarity
score — its cosine score is exactly 1 whenever its tf-idf vector is
nonzero, and by the Cauchy-Schwarz bound no entry can exceed 1 — and the
entry ranks first, under every admissible ascending argsort of the score
row, provided no other entry ties at the maximal score.  When another
entry does tie, the order among the tied entries is
implementation-defined (latest-first in numpy's insertion-sort regime,
see the counterexample), so the unqualified claim fails. -/
theorem self_query_ranks_first (rows rows' : List Row) (e : SimilarityEngine) (i k : ℕ)
    (hinit : SimilarityEngine.init rows = .ok (e, rows'))
    (hi : i < rows.length) (hk : 1 ≤ k)
    (hvec : dotp (tfidfVec e.docs (analyze (e.docs.getD i "")))
      (tfidfVec e.docs (analyze (e.docs.getD i ""))) ≠ 0)
    (hunique : ∀ j, j < rows.length → j ≠ i → scoreSq e.docs (e.docs.getD i "") j < 1) :
    e.docs.getD i "" =
      (rows.getD i default).issue ++ " " ++ (rows.getD i default).description ∧
    scoreSq e.docs (e.docs.getD i "") i = 1 ∧
    (∀ j, j < rows.length → scoreSq e.docs (e.docs.getD i "") j ≤ 1) ∧
    (∀ p : List ℕ, isAscendingArgsort (simScores e.docs (e.docs.getD i "")) p →
      (((pySliceLast p k).reverse).map
        (fun j => (e.resolved_tickets_df.getD j default).toSimilarRow)).head? =
        some ((e.resolved_tickets_df.getD i default).toSimilarRow)) ∧
    (e.find_similar_tickets (e.docs.getD i "") k).head? =
      some ((e.resolved_tickets_df.getD i default).toSimilarRow) := by
  obtain ⟨hrows', hdf⟩ := init_ok_parts hinit
  have hdocs_eq : e.docs = rows.map (fun r => r.issue ++ " " ++ r.description) := by
    rw [SimilarityEngine.docs, hdf, hrows']
    simp [addTextColumn, List.map_map, Function.comp]
  have hlen : e.docs.length = rows.length := by rw [hdocs_eq, List.length_map]
  have hget : e.docs.getD i "" =
      (rows.getD i default).issue ++ " " ++ (rows.getD i default).description := by
    have hsome : rows[i]? = some rows[i] := List.getElem?_eq_getElem hi
    rw [hdocs_eq, List.getD_eq_getElem?_getD, List.getElem?_map, hsome,
      List.getD_eq_getElem?_getD, hsome]
    rfl
  have hself : scoreSq e.docs (e.docs.getD i "") i = 1 := scoreSq_self e.docs i hvec
  have hle_all : ∀ j, j < rows.length → scoreSq e.docs (e.docs.getD i "") j ≤ 1 :=
    fun j _ => scoreSq_le_one e.docs (e.docs.getD i "") j
  have hslen : (simScores e.docs (e.docs.getD i "")).length = rows.length := by
    rw [simScores_length, hlen]
  have hgetD_s : ∀ j, j < rows.length →
      (simScores e.docs (e.docs.getD i "")).getD j 0 = scoreSq e.docs (e.docs.getD i "") j :=
    fun j hj => simScores_getD e.docs _ j (by rw [hlen]; exact hj)
  have hmax : ∀ j, j < (simScores e.docs (e.docs.getD i "")).length → j ≠ i →
      (simScores e.docs (e.docs.getD i "")).getD j 0 <
        (simScores e.docs (e.docs.getD i "")).getD i 0 := by
    intro j hj hne
    rw [hslen] at hj
    rw [hgetD_s j hj, hgetD_s i hi, hself]
    exact hunique j hj hne
  have hhead : ∀ p : List ℕ, isAscendingArgsort (simScores e.docs (e.docs.getD i "")) p →
      (((pySliceLast p k).reverse).map
        (fun j => (e.resolved_tickets_df.getD j default).toSimilarRow)).head? =
        some ((e.resolved_tickets_df.getD i default).toSimilarRow) := by
    intro p hp
    have hne : p ≠ [] := by
      intro h
      have hplen : p.length = (simScores e.docs (e.docs.getD i "")).length := by
        rw [hp.1.length_eq, List.length_range]
      rw [h, hslen] at hplen
      simp at hplen
      omega
    rw [List.head?_map, ascSlice_head p k hk hne,
      asc_getLast_unique_max _ p hp i (by rw [hslen]; exact hi) hmax]
    rfl
  refine ⟨hget, hself, hle_all, hhead, ?_⟩
  simp only [SimilarityEngine.find_similar_tickets]
  exact hhead (argsortAsc (simScores e.docs (e.docs.getD i ""))) (argsortAsc_isAscending _)

theorem tfidf_qC8 : tfidfVec ["printer jam paper"] (analyze "printer jam paper") = [2, 2, 2] := by
  have hvocab : buildVocab ["printer jam paper"] = ["printer", "jam", "paper"] := by decide
  have hana : analyze "printer jam paper" = ["printer", "jam", "paper"] := by decide
  have hf1 : docFreq ["printer jam paper"] "printer" = 1 := by decide
  have hf2 : docFreq ["printer jam paper"] "jam" = 1 := by decide
  have hf3 : docFreq ["printer jam paper"] "paper" = 1 := by decide
  have hc1 : (["printer", "jam", "paper"].count "printer") = 1 := by decide
  have hc2 : (["printer", "jam", "paper"].count "jam") = 1 := by decide
  have hc3 : (["printer", "jam", "paper"].count "paper") = 1 := by decide
  have hidf : idfWeight 1 1 = 2 := by norm_num [idfWeight]
  simp only [tfidfVec, hvocab, hana, List.map_cons, List.map_nil,
    List.length_cons, List.length_nil, hf1, hf2, hf3, hc1, hc2, hc3, hidf]
  norm_num [hidf]

theorem docVecC8_ne_zero :
    dotp (tfidfVec engineC8.docs (analyze (engineC8.docs.getD 0 "")))
      (tfidfVec engineC8.docs (analyze (engineC8.docs.getD 0 ""))) ≠ 0 := by
  have hdocs : engineC8.docs = ["printer jam paper"] := by decide
  have hget : engineC8.docs.getD 0 "" = "printer jam paper" := by rw [hdocs]; rfl
  rw [hget, hdocs, tfidf_qC8]
  norm_num [dotp]

/-- C8 (witness): the amended statement instantiated at the one-entry
corpus `rowsC8` with the default `top_k = 3`: querying the entry's own
text scores it 1 and returns it first under every admissible argsort,
the executable pipeline included. -/
theorem self_query_ranks_first_witness :
    engineC8.docs.getD 0 "" =
      (rowsC8.getD 0 default).issue ++ " " ++ (rowsC8.getD 0 default).description ∧
    scoreSq engineC8.docs (engineC8.docs.getD 0 "") 0 = 1 ∧
    (∀ j, j < rowsC8.length → scoreSq engineC8.docs (engineC8.docs.getD 0 "") j ≤ 1) ∧
    (∀ p : List ℕ, isAscendingArgsort (simScores engineC8.docs (engineC8.docs.getD 0 "")) p →
      (((pySliceLast p 3).reverse).map
        (fun j => (engineC8.resolved_tickets_df.getD j default).toSimilarRow)).head? =
        some ((engineC8.resolved_tickets_df.getD 0 default).toSimilarRow)) ∧
    (engineC8.find_similar_tickets (engineC8.docs.getD 0 "") 3).head? =
      some ((engineC8.resolved_tickets_df.getD 0 default).toSimilarRow) :=
  self_query_ranks_first rowsC8 (addTextColumn rowsC8) engineC8 0 3 rfl
    (by decide) (by decide) docVecC8_ne_zero
    (by intro j hj1 hj2; have hlen : rowsC8.length = 1 := rfl; omega)

end HelpdeskModel
